import Mathlib

/-!
Verification development for the oramacore TypeScript client.

The development shallowly embeds the client's code in Lean:

* `src/lib/utils.ts` — `createRandomString` and friends;
* the collection-manager file — `CollectionManager` with `insert`,
  `insertTrigger`, `createAnswerSession`, each modelled as a pure function
  that either returns the HTTP request it would issue (an `OramaRequest`)
  or fails with `Except.error` where the TypeScript throws synchronously;
* the answer-session module (`answer-session.ts`), whose source file is not
  part of the sources at hand: its data model and operations are modelled
  from the specification document, and each such definition carries a doc
  comment starting with `Modelled from the spec:`.

JavaScript strings are embedded as Lean `String`; optional string fields as
`Option String`, with JavaScript truthiness made explicit (`jsFalsyStr`).
-/

namespace Orama

/-- Truthiness of an optional JavaScript string: `undefined` and the empty
string `''` are falsy, every other string is truthy.  This is the test the
TypeScript performs with `!x` on a field of type `string | undefined`. -/
def jsFalsyStr : Option String → Bool
  | none => true
  | some s => s == ""

/-! ## lib/utils.ts -/

/-- The alphabet used by `createRandomString` in `src/lib/utils.ts`
(the literal bound to `characters`). -/
def characters : String :=
  "ABCDEFGHIJKLMNOPQRSTUVWXYZabcdefghijklmnopqrstuvwxyz0123456789_-$"

/-- JavaScript `String.prototype.charAt`: the one-character string at
index `i`, or the empty string when `i` is out of range. -/
def charAt (s : String) (i : Nat) : String :=
  if h : i < s.data.length then String.singleton (s.data.get ⟨i, h⟩) else ""

/-- Embedding of `createRandomString(length)` from `src/lib/utils.ts`.
Each loop iteration appends `characters.charAt(Math.floor(Math.random() *
characters.length))`; since `Math.random()` ranges over `[0, 1)` and
`characters.length` is 65, the floored draw is a natural number below 65,
which we pass in as the oracle `random : Nat → Fin 65` (one draw per loop
index). -/
def createRandomString (length : Nat) (random : Nat → Fin 65) : String :=
  (List.range length).foldl (fun result i => result ++ charAt characters (random i).val) ""

/-! ## CollectionManager (collection.ts) -/

/-- HTTP method of a request issued through `OramaInterface.request`. -/
inductive HttpMethod
  | GET
  | POST
deriving DecidableEq, Repr

/-- Security level of a request issued through `OramaInterface.request`
(`'write'`, `'read'`, `'read-query'` in the TypeScript). -/
inductive SecurityLevel
  | write
  | read
  | readQuery
deriving DecidableEq, Repr

/-- The request a `CollectionManager` method hands to the transport
collaborator (`this.oramaInterface.request({url, body, method,
securityLevel})`).  The transport itself is out of scope; a method's
observable effect is the request value it constructs. -/
structure OramaRequest (β : Type) where
  url : String
  body : β
  method : HttpMethod
  securityLevel : SecurityLevel
deriving DecidableEq, Repr

/-- Embedding of `CollectionManagerConfig` from collection.ts: optional
fields become `Option String`. -/
structure CollectionManagerConfig where
  url : String
  collectionID : String
  writeAPIKey : Option String
  readAPIKey : Option String
deriving DecidableEq, Repr

/-- State of a `CollectionManager` instance: the fields its constructor
stores.  The `OramaInterface` and `Profile` collaborators it also builds
are external request/response plumbing and are not part of the state we
reason about. -/
structure CollectionManager where
  url : String
  collectionID : String
  writeAPIKey : Option String
  readAPIKey : Option String
deriving DecidableEq, Repr

/-- The `CollectionManager` constructor: stores the configuration fields. -/
def CollectionManager.ofConfig (config : CollectionManagerConfig) : CollectionManager :=
  { url := config.url
    collectionID := config.collectionID
    writeAPIKey := config.writeAPIKey
    readAPIKey := config.readAPIKey }

/-- The configuration `createAnswerSession` passes to `new AnswerSession`:
`{url, readAPIKey: this.readAPIKey || '', collectionID}` (the optional
`CreateAnswerSessionConfig` spread carries caller-side event hooks and LLM
selection and is not modelled). -/
structure AnswerSessionConfig where
  url : String
  readAPIKey : String
  collectionID : String
deriving DecidableEq, Repr

/-- Embedding of `CollectionManager.createAnswerSession`: throws
synchronously (`Except.error`, no request issued) when `!this.readAPIKey`,
otherwise returns the `AnswerSession` construction argument. -/
def CollectionManager.createAnswerSession (m : CollectionManager) :
    Except String AnswerSessionConfig :=
  if jsFalsyStr m.readAPIKey then
    .error "Read API key is required to create an answer session"
  else
    .ok { url := m.url, readAPIKey := m.readAPIKey.getD "", collectionID := m.collectionID }

/-- Argument of `CollectionManager.insert`: `AnyObject[] | AnyObject`,
i.e. either a single document or an array of documents (documents
themselves are opaque, hence the type parameter). -/
inductive DocInput (α : Type)
  | single (d : α)
  | array (ds : List α)
deriving DecidableEq, Repr

/-- Embedding of `CollectionManager.insert`: `if (!Array.isArray(documents))
documents = [documents]`, then a POST to the collection's `/insert`
endpoint at security level `write` with the array as body. -/
def CollectionManager.insert {α : Type} (m : CollectionManager) (documents : DocInput α) :
    OramaRequest (List α) :=
  let docs : List α :=
    match documents with
    | .single d => [d]
    | .array ds => ds
  { url := "/v1/collections/" ++ m.collectionID ++ "/insert"
    body := docs
    method := .POST
    securityLevel := .write }

/-- The part of `InsertTriggerBody` the code inspects: the optional
`segment_id` field (the remaining trigger fields ride along opaquely in the
request body and never influence control flow). -/
structure InsertTriggerBody where
  name : String
  segment_id : Option String
deriving DecidableEq, Repr

/-- Embedding of `CollectionManager.insertTrigger`: throws synchronously
(`Except.error`, before any request) when `!trigger.segment_id`, otherwise
issues a POST to the collection's `/triggers/insert` endpoint at security
level `write` with the trigger as body. -/
def CollectionManager.insertTrigger (m : CollectionManager) (trigger : InsertTriggerBody) :
    Except String (OramaRequest InsertTriggerBody) :=
  if jsFalsyStr trigger.segment_id then
    .error "You cannot insert a trigger without a segment_id"
  else
    .ok { url := "/v1/collections/" ++ m.collectionID ++ "/triggers/insert"
          body := trigger
          method := .POST
          securityLevel := .write }

/-! ## Answer session (answer-session.ts)

The answer-session module's source file is not among the sources at hand
(only its exports and its callers are), so the definitions below are
modelled from the specification document, as their doc comments state. -/

/-- Modelled from the spec: `state` of an Interaction is one of `pending`,
`streaming`, `done`, `error`; `done` and `error` are terminal. -/
inductive InteractionState
  | pending
  | streaming
  | done
  | error
deriving DecidableEq, Repr

/-- A state is terminal when it is `done` or `error`. -/
def InteractionState.isTerminal : InteractionState → Bool
  | .done => true
  | .error => true
  | _ => false

/-- Position of a state in the forward order `pending, streaming,
done/error` (the two terminal states share the final position). -/
def InteractionState.rank : InteractionState → Nat
  | .pending => 0
  | .streaming => 1
  | .done => 2
  | .error => 2

/-- Modelled from the spec: the `kind` of a plan step (retrieval,
tool-call, generation). -/
inductive StepKind
  | retrieval
  | toolCall
  | generation
deriving DecidableEq, Repr

/-- Modelled from the spec: the `status` of a plan step. -/
inductive StepStatus
  | pending
  | running
  | done
  | failed
  | skipped
deriving DecidableEq, Repr

/-- Outcome of attempting a plan step (e.g. a tool call whose serialized
arguments parse and run, or fail to). -/
inductive StepOutcome
  | success
  | failure
deriving DecidableEq, Repr

/-- A server-declared plan step before execution: its kind, whether it is
flagged required, and what attempting it yields. -/
structure StepDescriptor where
  kind : StepKind
  required : Bool
  outcome : StepOutcome
deriving DecidableEq, Repr

/-- A plan step after the executor has touched it: kind, required flag and
resolved status. -/
structure ExecutedStep where
  kind : StepKind
  required : Bool
  status : StepStatus
deriving DecidableEq, Repr

/-- Modelled from the spec: a `PlanExecution` tracks the ordered steps and
`currentStepIndex`, a pointer into the steps that advances strictly
forward. -/
structure PlanExecution where
  steps : List ExecutedStep
  currentStepIndex : Nat
deriving DecidableEq, Repr

/-- Modelled from the spec: an `Interaction` is one question/answer
exchange — id, query, accumulated response text, state, plan reference and
aborted flag (`sources` carries retrieved documents and plays no role in
the claims). -/
structure Interaction where
  id : Nat
  query : String
  response : String
  state : InteractionState
  aborted : Bool
  plan : Option PlanExecution
deriving DecidableEq, Repr

/-- Modelled from the spec: `ask` creates a new Interaction in `pending`
state with empty `response` and immediately transitions it to `streaming`;
this is that Interaction as first observable (net state `streaming`). -/
def newInteraction (id : Nat) (query : String) : Interaction :=
  { id := id, query := query, response := "", state := .streaming
    aborted := false, plan := none }

/-- Modelled from the spec: a stream fragment appends to `response`; the
value is frozen once the interaction reaches a terminal state, so only a
`streaming` interaction grows. -/
def appendFragment (it : Interaction) (fragment : String) : Interaction :=
  if it.state = .streaming then { it with response := it.response ++ fragment } else it

/-- Apply a finite sequence of stream fragments in arrival order. -/
def applyFragments (it : Interaction) (fragments : List String) : Interaction :=
  fragments.foldl appendFragment it

/-- Concatenation of fragments in arrival order (the reference value the
accumulated response is compared against). -/
def concatFragments : List String → String
  | [] => ""
  | f :: fs => f ++ concatFragments fs

/-- Modelled from the spec: normal completion moves a non-terminal
interaction to `done`; terminal interactions are frozen. -/
def markDone (it : Interaction) : Interaction :=
  if it.state.isTerminal then it else { it with state := .done }

/-- Modelled from the spec: a transport failure moves a non-terminal
interaction to the terminal `error` state, leaving the accumulated
`response` text untouched; the failure is recorded in the state (this is a
total function: nothing is thrown across the streaming boundary). -/
def transportFail (it : Interaction) : Interaction :=
  if it.state.isTerminal then it else { it with state := .error }

/-- Modelled from the spec: `abort()` on an active interaction sets
`aborted` and moves it to the terminal `done` state with whatever partial
response has accumulated; on a terminal interaction it is a no-op. -/
def abortInteraction (it : Interaction) : Interaction :=
  if it.state.isTerminal then it else { it with aborted := true, state := .done }

/-- True when a failed step aborts the whole plan: its outcome is failure
and it is flagged required. -/
def StepDescriptor.aborts (d : StepDescriptor) : Bool :=
  d.outcome == .failure && d.required

/-- Resolved status of a step the executor ran without aborting: success
yields `done`; a non-required failure is marked `failed` (skipped in
effect: the plan continues past it). -/
def execStep (d : StepDescriptor) : ExecutedStep :=
  { kind := d.kind, required := d.required
    status := match d.outcome with | .success => .done | .failure => .failed }

/-- Modelled from the spec: the Plan Executor drives the declared steps
strictly in order from position `idx`.  A successful step is marked `done`
and execution advances; a failed non-required step is marked `failed` and
execution advances (skipped-equivalent in effect); a failed required step
is marked `failed`, the remaining steps are left `pending`, the index does
not advance past the failed step, and the run ends in `error`.  Running
out of steps ends the run in `done`.  Returns the executed steps, the
final `currentStepIndex`, and the resulting interaction state. -/
def runSteps : List StepDescriptor → Nat → List ExecutedStep × Nat × InteractionState
  | [], idx => ([], idx, .done)
  | d :: rest, idx =>
    match d.outcome, d.required with
    | .failure, true =>
      ({ kind := d.kind, required := d.required, status := .failed } ::
          rest.map (fun r => { kind := r.kind, required := r.required, status := .pending }),
        idx, .error)
    | .failure, false =>
      let r := runSteps rest (idx + 1)
      ({ kind := d.kind, required := d.required, status := .failed } :: r.1, r.2)
    | .success, _ =>
      let r := runSteps rest (idx + 1)
      ({ kind := d.kind, required := d.required, status := .done } :: r.1, r.2)

/-- Modelled from the spec: running a declared plan against its owning
(active, hence non-terminal) Interaction records the `PlanExecution` and
moves the Interaction to the run's resulting state — `done` on normal
completion, `error` when a required step failed.  Terminal interactions
are frozen. -/
def runPlan (it : Interaction) (descriptors : List StepDescriptor) : Interaction :=
  let r := runSteps descriptors 0
  if it.state.isTerminal then it
  else { it with plan := some { steps := r.1, currentStepIndex := r.2.1 }, state := r.2.2 }

/-- Modelled from the spec: the session operations that touch a given
Interaction's state — the ask-time `pending → streaming` transition,
fragment arrival, plan step transitions, normal completion, transport
failure, and `abort()`. -/
inductive InteractionOp
  | startStreaming
  | fragment (s : String)
  | plan (descriptors : List StepDescriptor)
  | finish
  | fail
  | abortOp
deriving DecidableEq, Repr

/-- Apply one session operation to an Interaction. -/
def applyOp (it : Interaction) : InteractionOp → Interaction
  | .startStreaming => if it.state = .pending then { it with state := .streaming } else it
  | .fragment s => appendFragment it s
  | .plan ds => runPlan it ds
  | .finish => markDone it
  | .fail => transportFail it
  | .abortOp => abortInteraction it

/-- Apply a sequence of session operations in order. -/
def applyOps (it : Interaction) (ops : List InteractionOp) : Interaction :=
  ops.foldl applyOp it

/-- Modelled from the spec: errors raised for caller misuse of the public
contract (`regenerateLast()` on an empty store, `ask()` with an empty
query). -/
inductive SessionError
  | invalidState
deriving DecidableEq, Repr

/-- Modelled from the spec: per-session state — the ordered Interaction
Store and the client-side id generator. -/
structure AnswerSessionState where
  interactions : List Interaction
  nextId : Nat
deriving DecidableEq, Repr

/-- Modelled from the spec: `ask(query)` requires a non-empty query
(`InvalidStateError` otherwise), creates a new Interaction in `pending`
state, appends it to the store and immediately transitions it to
`streaming`. -/
def ask (s : AnswerSessionState) (query : String) : Except SessionError AnswerSessionState :=
  if query = "" then .error .invalidState
  else .ok { interactions := s.interactions ++ [newInteraction s.nextId query]
             nextId := s.nextId + 1 }

/-- Modelled from the spec: `regenerateLast()` re-issues the most recent
query with the same contract as `ask`, and fails with `InvalidStateError`
if the store is empty. -/
def regenerateLast (s : AnswerSessionState) : Except SessionError AnswerSessionState :=
  match s.interactions.getLast? with
  | none => .error .invalidState
  | some last => ask s last.query

/-- Modify the last element of the store, if any (the Interaction Store
mutates in place the last element only). -/
def modifyLast (f : Interaction → Interaction) : List Interaction → List Interaction
  | [] => []
  | it :: rest =>
    match rest with
    | [] => [f it]
    | _ :: _ => it :: modifyLast f rest

/-- Modelled from the spec: `abort()` cancels the active (most recent)
Interaction if any, leaving it terminal; it is a total function (never
raises) and a no-op when no active Interaction exists. -/
def AnswerSessionState.abort (s : AnswerSessionState) : AnswerSessionState :=
  { s with interactions := modifyLast abortInteraction s.interactions }

/-! ## Theorems -/

/-- C1 counterexample: a `CollectionManager` constructed with an empty
string as its read API key holds a read API key, yet `createAnswerSession`
throws (the code tests JavaScript truthiness, under which `''` counts as
missing), contradicting the claim that every manager holding a read API
key gets an `AnswerSession` without throwing. -/
theorem createAnswerSession_empty_key_counterexample :
    (CollectionManager.ofConfig
        { url := "https://example.com", collectionID := "c1"
          writeAPIKey := none, readAPIKey := some "" }).createAnswerSession =
      .error "Read API key is required to create an answer session" := by
  rfl

/-- C1 (amended): for every `CollectionManager` whose read API key is
absent or empty, `createAnswerSession` fails synchronously with the
configuration error and issues no request; for every manager holding a
non-empty read API key it returns the `AnswerSession` construction
argument without throwing. -/
theorem createAnswerSession_spec (config : CollectionManagerConfig) :
    ((config.readAPIKey = none ∨ config.readAPIKey = some "") →
      (CollectionManager.ofConfig config).createAnswerSession =
        .error "Read API key is required to create an answer session") ∧
    (∀ k, config.readAPIKey = some k → k ≠ "" →
      (CollectionManager.ofConfig config).createAnswerSession =
        .ok { url := config.url, readAPIKey := k, collectionID := config.collectionID }) := by
  constructor
  · rintro (h | h) <;>
      simp [CollectionManager.createAnswerSession, CollectionManager.ofConfig, jsFalsyStr, h]
  · intro k hk hne
    simp [CollectionManager.createAnswerSession, CollectionManager.ofConfig, jsFalsyStr, hk, hne]

/-- Witness for C1 (amended) at concrete configurations: a manager with an
absent key fails, a manager with the key `"secret"` succeeds. -/
theorem createAnswerSession_spec_witness :
    ((CollectionManager.ofConfig
        { url := "https://example.com", collectionID := "c1"
          writeAPIKey := some "w", readAPIKey := none }).createAnswerSession =
      .error "Read API key is required to create an answer session") ∧
    ((CollectionManager.ofConfig
        { url := "https://example.com", collectionID := "c1"
          writeAPIKey := none, readAPIKey := some "secret" }).createAnswerSession =
      .ok { url := "https://example.com", readAPIKey := "secret", collectionID := "c1" }) :=
  ⟨(createAnswerSession_spec
      { url := "https://example.com", collectionID := "c1"
        writeAPIKey := some "w", readAPIKey := none }).1 (Or.inl rfl),
   (createAnswerSession_spec
      { url := "https://example.com", collectionID := "c1"
        writeAPIKey := none, readAPIKey := some "secret" }).2 "secret" rfl (by decide)⟩

/-- C8: `insert` always sends an array to the collection's write-level
`/insert` endpoint — a single document `d` is wrapped into `[d]`, an array
input is sent unchanged. -/
theorem insert_body_is_array {α : Type} (m : CollectionManager) (d : α) (ds : List α) :
    (m.insert (DocInput.single d)).body = [d] ∧
    (m.insert (DocInput.array ds)).body = ds ∧
    (m.insert (DocInput.single d)).securityLevel = .write ∧
    (m.insert (DocInput.single d)).url = "/v1/collections/" ++ m.collectionID ++ "/insert" := by
  refine ⟨rfl, rfl, rfl, rfl⟩

/-- C9: `insertTrigger` fails synchronously (no request issued) exactly
when the trigger's `segment_id` is absent or empty; with a non-empty
`segment_id` it issues the write-level POST to the collection's
`/triggers/insert` endpoint with the trigger as body. -/
theorem insertTrigger_requires_segment_id (m : CollectionManager) (trigger : InsertTriggerBody) :
    ((trigger.segment_id = none ∨ trigger.segment_id = some "") →
      m.insertTrigger trigger = .error "You cannot insert a trigger without a segment_id") ∧
    (∀ sid, trigger.segment_id = some sid → sid ≠ "" →
      m.insertTrigger trigger =
        .ok { url := "/v1/collections/" ++ m.collectionID ++ "/triggers/insert"
              body := trigger, method := .POST, securityLevel := .write }) := by
  constructor
  · rintro (h | h) <;> simp [CollectionManager.insertTrigger, jsFalsyStr, h]
  · intro sid hsid hne
    simp [CollectionManager.insertTrigger, jsFalsyStr, hsid, hne]

/-- Witness for C9 at concrete triggers: an empty `segment_id` is refused,
the `segment_id` `"s1"` goes through. -/
theorem insertTrigger_requires_segment_id_witness :
    ((CollectionManager.ofConfig
        { url := "u", collectionID := "c1", writeAPIKey := some "w", readAPIKey := none
        }).insertTrigger { name := "t", segment_id := some "" } =
      .error "You cannot insert a trigger without a segment_id") ∧
    ((CollectionManager.ofConfig
        { url := "u", collectionID := "c1", writeAPIKey := some "w", readAPIKey := none
        }).insertTrigger { name := "t", segment_id := some "s1" } =
      .ok { url := "/v1/collections/c1/triggers/insert"
            body := { name := "t", segment_id := some "s1" }
            method := .POST, securityLevel := .write }) :=
  ⟨(insertTrigger_requires_segment_id
      (CollectionManager.ofConfig
        { url := "u", collectionID := "c1", writeAPIKey := some "w", readAPIKey := none })
      { name := "t", segment_id := some "" }).1 (Or.inr rfl),
   (insertTrigger_requires_segment_id
      (CollectionManager.ofConfig
        { url := "u", collectionID := "c1", writeAPIKey := some "w", readAPIKey := none })
      { name := "t", segment_id := some "s1" }).2 "s1" rfl (by decide)⟩

/-- The alphabet literal has 65 characters. -/
theorem characters_data_length : characters.data.length = 65 := by decide

/-- In-range `charAt` on the alphabet returns a one-character string. -/
theorem charAt_characters_length (i : Nat) (h : i < 65) : (charAt characters i).length = 1 := by
  have h' : i < characters.data.length := by rw [characters_data_length]; exact h
  unfold charAt
  rw [dif_pos h']
  rfl

/-- In-range `charAt` on the alphabet returns characters of the alphabet. -/
theorem charAt_characters_all (i : Nat) (h : i < 65) :
    (charAt characters i).data.all (fun c => characters.data.contains c) = true := by
  have h' : i < characters.data.length := by rw [characters_data_length]; exact h
  unfold charAt
  rw [dif_pos h']
  have hd : (String.singleton (characters.data.get ⟨i, h'⟩)).data
      = [characters.data.get ⟨i, h'⟩] := rfl
  rw [hd]
  simp only [List.all_cons, List.all_nil, Bool.and_true]
  exact List.elem_eq_true_of_mem (characters.data.get_mem i h')

/-- Unrolling one loop iteration of `createRandomString`. -/
theorem createRandomString_succ (n : Nat) (random : Nat → Fin 65) :
    createRandomString (n + 1) random =
      createRandomString n random ++ charAt characters (random n).val := by
  simp [createRandomString, List.range_succ]

/-- The generated string has exactly the requested length. -/
theorem createRandomString_length (n : Nat) (random : Nat → Fin 65) :
    (createRandomString n random).length = n := by
  induction n with
  | zero => rfl
  | succ k ih =>
    rw [createRandomString_succ, String.length_append, ih,
      charAt_characters_length _ (random k).isLt]

/-- Every character of the generated string belongs to the alphabet. -/
theorem createRandomString_chars (n : Nat) (random : Nat → Fin 65) :
    (createRandomString n random).data.all (fun c => characters.data.contains c) = true := by
  induction n with
  | zero => rfl
  | succ k ih =>
    rw [createRandomString_succ, String.data_append, List.all_append, ih,
      charAt_characters_all _ (random k).isLt]
    rfl

/-- C10: for every non-negative length and every sequence of random draws,
`createRandomString(length)` returns a string of exactly `length`
characters, each drawn from the 65-character alphabet of ASCII letters,
digits, underscore, hyphen and dollar sign. -/
theorem createRandomString_spec (length : Nat) (random : Nat → Fin 65) :
    (createRandomString length random).length = length ∧
    (createRandomString length random).data.all (fun c => characters.data.contains c) = true ∧
    characters.length = 65 ∧
    characters.data.all
      (fun c => c.isAlpha || c.isDigit || c == '_' || c == '-' || c == '$') = true :=
  ⟨createRandomString_length length random, createRandomString_chars length random,
    by decide, by decide⟩

/-- A fragment append never changes the interaction's state. -/
theorem appendFragment_state (it : Interaction) (f : String) :
    (appendFragment it f).state = it.state := by
  unfold appendFragment
  split <;> rfl

/-- Applying a fragment sequence never changes the interaction's state. -/
theorem applyFragments_state (frs : List String) (it : Interaction) :
    (applyFragments it frs).state = it.state := by
  induction frs generalizing it with
  | nil => rfl
  | cons f fs ih =>
    show (applyFragments (appendFragment it f) fs).state = it.state
    rw [ih, appendFragment_state]

/-- On a streaming interaction, a fragment sequence appends its
concatenation to the accumulated response. -/
theorem applyFragments_response (frs : List String) (it : Interaction)
    (h : it.state = .streaming) :
    (applyFragments it frs).response = it.response ++ concatFragments frs := by
  induction frs generalizing it with
  | nil => exact (String.append_empty it.response).symm
  | cons f fs ih =>
    show (applyFragments (appendFragment it f) fs).response = _
    rw [ih (appendFragment it f) (by rw [appendFragment_state]; exact h)]
    unfold appendFragment
    rw [if_pos h]
    show (it.response ++ f) ++ concatFragments fs = it.response ++ (f ++ concatFragments fs)
    rw [String.append_assoc]

/-- The concatenation of a fragment list has the fragments' total length. -/
theorem concatFragments_length (frs : List String) :
    (concatFragments frs).length = (frs.map String.length).sum := by
  induction frs with
  | nil => rfl
  | cons f fs ih => simp [concatFragments, String.length_append, ih]

/-- C2: the interaction created by ask starts with an empty response, and
applying any finite sequence of response fragments in arrival order yields
a response equal to the fragments' concatenation in arrival order, whose
length is the fragments' total length. -/
theorem interaction_response_accumulation (i : Nat) (q : String) (frs : List String) :
    (newInteraction i q).response = "" ∧
    (applyFragments (newInteraction i q) frs).response = concatFragments frs ∧
    (applyFragments (newInteraction i q) frs).response.length = (frs.map String.length).sum := by
  have h := applyFragments_response frs (newInteraction i q) rfl
  rw [show (newInteraction i q).response = "" from rfl, String.empty_append] at h
  exact ⟨rfl, h, by rw [h, concatFragments_length]⟩

/-- C5: a transport failure after any number of received fragments moves
the interaction to the terminal `error` state, with the accumulated
partial response preserved intact; the failure is a value-level state
transition (`transportFail` is total), not an exception crossing the
streaming boundary. -/
theorem transport_failure_preserves_partial (i : Nat) (q : String) (frs : List String) :
    (transportFail (applyFragments (newInteraction i q) frs)).state = .error ∧
    (transportFail (applyFragments (newInteraction i q) frs)).response = concatFragments frs := by
  have hs : (applyFragments (newInteraction i q) frs).state = .streaming :=
    applyFragments_state frs (newInteraction i q)
  have hr := applyFragments_response frs (newInteraction i q) rfl
  rw [show (newInteraction i q).response = "" from rfl, String.empty_append] at hr
  have hterm : (applyFragments (newInteraction i q) frs).state.isTerminal = false := by
    rw [hs]; rfl
  constructor
  · unfold transportFail
    rw [hterm]
    rfl
  · unfold transportFail
    rw [hterm]
    exact hr

/-- The rank of any interaction state is at most the terminal rank. -/
theorem rank_le_two (s : InteractionState) : s.rank ≤ 2 := by
  cases s <;> decide

/-- A plan run always ends in a terminal interaction state (rank 2). -/
theorem runSteps_state_rank (ds : List StepDescriptor) (idx : Nat) :
    ((runSteps ds idx).2.2).rank = 2 := by
  induction ds generalizing idx with
  | nil => rfl
  | cons d rest ih =>
    obtain ⟨k, req, out⟩ := d
    cases out <;> cases req <;> simp only [runSteps] <;> first | rfl | exact ih _

/-- A plan run leaves a terminal interaction untouched. -/
theorem runPlan_of_terminal (it : Interaction) (ds : List StepDescriptor)
    (h : it.state.isTerminal = true) : runPlan it ds = it := by
  unfold runPlan
  rw [h]
  simp

/-- A plan run moves an active interaction to the run's resulting state
and records the executed plan. -/
theorem runPlan_of_active (it : Interaction) (ds : List StepDescriptor)
    (h : it.state.isTerminal = false) :
    runPlan it ds =
      { it with
        plan := some { steps := (runSteps ds 0).1, currentStepIndex := (runSteps ds 0).2.1 }
        state := (runSteps ds 0).2.2 } := by
  unfold runPlan
  rw [h]
  simp

/-- One session operation never decreases the interaction state's rank. -/
theorem applyOp_rank (it : Interaction) (op : InteractionOp) :
    it.state.rank ≤ (applyOp it op).state.rank := by
  cases op with
  | startStreaming =>
    simp only [applyOp]
    by_cases h : it.state = .pending
    · rw [if_pos h, h]
      show InteractionState.pending.rank ≤ InteractionState.streaming.rank
      decide
    · rw [if_neg h]
  | fragment s =>
    simp only [applyOp]
    rw [appendFragment_state]
  | plan ds =>
    simp only [applyOp]
    by_cases h : it.state.isTerminal = true
    · rw [runPlan_of_terminal it ds h]
    · rw [runPlan_of_active it ds (Bool.eq_false_iff.mpr h)]
      show it.state.rank ≤ ((runSteps ds 0).2.2).rank
      rw [runSteps_state_rank]
      exact rank_le_two it.state
  | finish =>
    simp only [applyOp, markDone]
    by_cases h : it.state.isTerminal = true
    · rw [if_pos h]
    · rw [if_neg h]
      exact rank_le_two it.state
  | fail =>
    simp only [applyOp, transportFail]
    by_cases h : it.state.isTerminal = true
    · rw [if_pos h]
    · rw [if_neg h]
      exact rank_le_two it.state
  | abortOp =>
    simp only [applyOp, abortInteraction]
    by_cases h : it.state.isTerminal = true
    · rw [if_pos h]
    · rw [if_neg h]
      exact rank_le_two it.state

/-- C3: under every sequence of session operations (the ask-time
transition, fragment arrival, plan step transitions, completion, transport
failure, abort), an Interaction's state only moves forward through the
order `pending`, `streaming`, `done`/`error` — its rank in that order
never decreases, so no transition ever goes back to an earlier state. -/
theorem interaction_state_monotonic (ops : List InteractionOp) (it : Interaction) :
    it.state.rank ≤ (applyOps it ops).state.rank := by
  induction ops generalizing it with
  | nil => exact Nat.le_refl _
  | cons op ops ih =>
    exact Nat.le_trans (applyOp_rank it op) (ih (applyOp it op))

/-- Aborting an interaction always leaves it terminal. -/
theorem abortInteraction_terminal (it : Interaction) :
    (abortInteraction it).state.isTerminal = true := by
  unfold abortInteraction
  by_cases h : it.state.isTerminal = true
  · rw [if_pos h]; exact h
  · rw [if_neg h]; rfl

/-- Aborting a terminal interaction is a no-op. -/
theorem abortInteraction_of_terminal (it : Interaction) (h : it.state.isTerminal = true) :
    abortInteraction it = it := by
  unfold abortInteraction
  rw [if_pos h]

/-- Aborting twice is the same as aborting once. -/
theorem abortInteraction_idem (it : Interaction) :
    abortInteraction (abortInteraction it) = abortInteraction it :=
  abortInteraction_of_terminal (abortInteraction it) (abortInteraction_terminal it)

/-- Unfolding `modifyLast` on a two-or-more element list. -/
theorem modifyLast_cons_cons (f : Interaction → Interaction) (a b : Interaction)
    (l : List Interaction) :
    modifyLast f (a :: b :: l) = a :: modifyLast f (b :: l) := rfl

/-- Modifying the last element of a non-empty list yields a non-empty
list. -/
theorem modifyLast_ne_nil (f : Interaction → Interaction) (a : Interaction)
    (l : List Interaction) : modifyLast f (a :: l) ≠ [] := by
  cases l with
  | nil => simp [modifyLast]
  | cons b l => rw [modifyLast_cons_cons]; simp

/-- The last element after `modifyLast` is the image of the old last
element. -/
theorem getLast?_modifyLast (f : Interaction → Interaction) :
    ∀ l : List Interaction, (modifyLast f l).getLast? = l.getLast?.map f
  | [] => rfl
  | [_] => rfl
  | a :: b :: l => by
    rw [modifyLast_cons_cons]
    cases h : modifyLast f (b :: l) with
    | nil => exact absurd h (modifyLast_ne_nil f b l)
    | cons c cs =>
      rw [List.getLast?_cons_cons, ← h, getLast?_modifyLast f (b :: l),
        List.getLast?_cons_cons]

/-- When the modification is idempotent, so is `modifyLast`. -/
theorem modifyLast_idem_of (f : Interaction → Interaction)
    (hf : ∀ it, f (f it) = f it) :
    ∀ l : List Interaction, modifyLast f (modifyLast f l) = modifyLast f l
  | [] => rfl
  | [a] => by
    show modifyLast f [f a] = [f a]
    show [f (f a)] = [f a]
    rw [hf]
  | a :: b :: l => by
    rw [modifyLast_cons_cons]
    cases h : modifyLast f (b :: l) with
    | nil => exact absurd h (modifyLast_ne_nil f b l)
    | cons c cs =>
      rw [modifyLast_cons_cons, ← h, modifyLast_idem_of f hf (b :: l)]

/-- C7: `abort()` is a total function on session states (it never raises),
calling it twice equals calling it once (idempotent, in particular on a
session with no active Interaction), and after it the most recent
Interaction — when one exists — is in a terminal state. -/
theorem abort_total_idempotent_terminal (s : AnswerSessionState) :
    s.abort.abort = s.abort ∧
    (s.abort.interactions.getLast?).all (fun it => it.state.isTerminal) = true := by
  constructor
  · have h := modifyLast_idem_of abortInteraction abortInteraction_idem s.interactions
    simp only [AnswerSessionState.abort, h]
  · simp only [AnswerSessionState.abort]
    rw [getLast?_modifyLast]
    cases s.interactions.getLast? with
    | none => rfl
    | some it =>
      show (abortInteraction it).state.isTerminal = true
      exact abortInteraction_terminal it

/-- C6: `regenerateLast()` on an empty store fails with
`InvalidStateError`; on a store whose most recent Interaction is terminal
with query `X` (issued through `ask`, hence non-empty) it appends a fresh
Interaction whose query equals `X`, leaving every prior Interaction —
including the previous last one, still terminal — unchanged. -/
theorem regenerateLast_spec (pre : List Interaction) (last : Interaction) (n : Nat)
    (hq : last.query ≠ "") (hterm : last.state.isTerminal = true) :
    regenerateLast ⟨[], n⟩ = .error .invalidState ∧
    regenerateLast ⟨pre ++ [last], n⟩ =
      .ok ⟨(pre ++ [last]) ++ [newInteraction n last.query], n + 1⟩ ∧
    (newInteraction n last.query).query = last.query ∧
    (((pre ++ [last]) ++ [newInteraction n last.query])[pre.length]?).all
      (fun it => it.state.isTerminal) = true := by
  refine ⟨rfl, ?_, rfl, ?_⟩
  · simp only [regenerateLast, List.getLast?_concat]
    simp [ask, hq]
  · rw [List.getElem?_append_left (by simp), List.getElem?_concat_length]
    exact hterm

/-- Witness for C6 at a concrete session: a store holding one terminal
interaction with query `"X"` gets a fresh interaction with the same query
appended; the empty store fails. -/
theorem regenerateLast_spec_witness :
    regenerateLast ⟨[], 1⟩ = .error .invalidState ∧
    regenerateLast ⟨[⟨0, "X", "an answer", .done, false, none⟩], 1⟩ =
      .ok ⟨[⟨0, "X", "an answer", .done, false, none⟩, newInteraction 1 "X"], 1 + 1⟩ ∧
    (newInteraction 1 "X").query = "X" ∧
    (([⟨0, "X", "an answer", .done, false, none⟩, newInteraction 1 "X"] :
        List Interaction)[0]?).all (fun it => it.state.isTerminal) = true :=
  regenerateLast_spec [] ⟨0, "X", "an answer", .done, false, none⟩ 1 (by decide) (by decide)

/-- Executing a prefix of steps none of which aborts the plan resolves
each of them (`done` on success, `failed`-but-continuing on non-required
failure) and hands execution to the remaining steps with the index
advanced past the prefix. -/
theorem runSteps_append (pre rest : List StepDescriptor) (idx : Nat)
    (h : ∀ x ∈ pre, x.aborts = false) :
    runSteps (pre ++ rest) idx =
      (pre.map execStep ++ (runSteps rest (idx + pre.length)).1,
        (runSteps rest (idx + pre.length)).2) := by
  induction pre generalizing idx with
  | nil => simp
  | cons d pre ih =>
    have hd : d.aborts = false := h d (List.mem_cons_self d pre)
    have hpre : ∀ x ∈ pre, x.aborts = false := fun x hx => h x (List.mem_cons_of_mem d hx)
    obtain ⟨k, req, out⟩ := d
    cases out with
    | success =>
      have harith : idx + 1 + pre.length = idx + (pre.length + 1) := by omega
      show ((⟨k, req, StepStatus.done⟩ : ExecutedStep) :: (runSteps (pre ++ rest) (idx + 1)).1,
        (runSteps (pre ++ rest) (idx + 1)).2) = _
      rw [ih (idx + 1) hpre, harith]
      simp [execStep]
    | failure =>
      cases req with
      | true => simp [StepDescriptor.aborts] at hd
      | false =>
        have harith : idx + 1 + pre.length = idx + (pre.length + 1) := by omega
        show ((⟨k, false, StepStatus.failed⟩ : ExecutedStep) ::
            (runSteps (pre ++ rest) (idx + 1)).1,
          (runSteps (pre ++ rest) (idx + 1)).2) = _
        rw [ih (idx + 1) hpre, harith]
        simp [execStep]

/-- C4: running a plan on its owning streaming Interaction, with a prefix
of steps none of which aborts: if the next step is a required step that
fails, the plan is aborted — the Interaction moves to `error`,
`currentStepIndex` stays at the failed step's position, and the remaining
steps are never started; if the next step fails but is not required, it is
resolved `failed` and treated as skipped — execution continues into the
remaining steps exactly as if the plan resumed past it. -/
theorem plan_failure_spec (it : Interaction) (pre post : List StepDescriptor)
    (d : StepDescriptor) (hit : it.state = .streaming)
    (hpre : ∀ x ∈ pre, x.aborts = false) (hf : d.outcome = .failure) :
    (d.required = true →
      (runPlan it (pre ++ d :: post)).state = .error ∧
      ((runPlan it (pre ++ d :: post)).plan.map PlanExecution.currentStepIndex) =
        some pre.length ∧
      ((runPlan it (pre ++ d :: post)).plan.map PlanExecution.steps) =
        some (pre.map execStep ++
          { kind := d.kind, required := true, status := StepStatus.failed } ::
            post.map (fun r => { kind := r.kind, required := r.required
                                 status := StepStatus.pending }))) ∧
    (d.required = false →
      (runPlan it (pre ++ d :: post)).state = (runSteps post (pre.length + 1)).2.2 ∧
      ((runPlan it (pre ++ d :: post)).plan.map PlanExecution.currentStepIndex) =
        some (runSteps post (pre.length + 1)).2.1 ∧
      ((runPlan it (pre ++ d :: post)).plan.map PlanExecution.steps) =
        some (pre.map execStep ++
          { kind := d.kind, required := false, status := StepStatus.failed } ::
            (runSteps post (pre.length + 1)).1)) := by
  have hterm : it.state.isTerminal = false := by rw [hit]; rfl
  have hrun := runPlan_of_active it (pre ++ d :: post) hterm
  have happ := runSteps_append pre (d :: post) 0 hpre
  obtain ⟨k, req, out⟩ := d
  cases hf
  constructor
  · rintro rfl
    simp only [runSteps, Nat.zero_add] at happ
    rw [hrun, happ]
    exact ⟨rfl, rfl, rfl⟩
  · rintro rfl
    simp only [runSteps, Nat.zero_add] at happ
    rw [hrun, happ]
    exact ⟨rfl, rfl, rfl⟩

/-- Witness for C4 at concrete plans: `[retrieval: done, tool-call:
failed(required)]` leaves the Interaction in `error` with the index stuck
at the failed step; `[retrieval: done, tool-call: failed(not required),
generation: done]` runs to completion with the failed step resolved
`failed` and the Interaction `done`. -/
theorem plan_failure_spec_witness :
    ((runPlan (newInteraction 0 "q")
        [⟨.retrieval, true, .success⟩, ⟨.toolCall, true, .failure⟩]).state = .error ∧
      ((runPlan (newInteraction 0 "q")
          [⟨.retrieval, true, .success⟩, ⟨.toolCall, true, .failure⟩]).plan.map
        PlanExecution.currentStepIndex) = some 1 ∧
      ((runPlan (newInteraction 0 "q")
          [⟨.retrieval, true, .success⟩, ⟨.toolCall, true, .failure⟩]).plan.map
        PlanExecution.steps) =
        some [⟨.retrieval, true, .done⟩, ⟨.toolCall, true, .failed⟩]) ∧
    ((runPlan (newInteraction 0 "q")
        [⟨.retrieval, true, .success⟩, ⟨.toolCall, false, .failure⟩,
          ⟨.generation, true, .success⟩]).state = .done ∧
      ((runPlan (newInteraction 0 "q")
          [⟨.retrieval, true, .success⟩, ⟨.toolCall, false, .failure⟩,
            ⟨.generation, true, .success⟩]).plan.map
        PlanExecution.currentStepIndex) = some 3 ∧
      ((runPlan (newInteraction 0 "q")
          [⟨.retrieval, true, .success⟩, ⟨.toolCall, false, .failure⟩,
            ⟨.generation, true, .success⟩]).plan.map
        PlanExecution.steps) =
        some [⟨.retrieval, true, .done⟩, ⟨.toolCall, false, .failed⟩,
          ⟨.generation, true, .done⟩]) :=
  ⟨(plan_failure_spec (newInteraction 0 "q") [⟨.retrieval, true, .success⟩] []
      ⟨.toolCall, true, .failure⟩ rfl (by decide) rfl).1 rfl,
    (plan_failure_spec (newInteraction 0 "q") [⟨.retrieval, true, .success⟩]
      [⟨.generation, true, .success⟩] ⟨.toolCall, false, .failure⟩ rfl (by decide) rfl).2 rfl⟩

end Orama
